import Mathlib

/-!
Verification of the system-catalog service in `src/main.py` (FastAPI + SQLAlchemy).

Shallow embedding conventions:
* The `sistemas` table is a list of rows (`Store`); `SistemaDB` mirrors the
  SQLAlchemy model (integer `id`, text `nome`, integer `version`, nullable text
  `arquivo`).
* Filesystem paths are lists of components (`List String`); the filesystem is an
  association list from paths to byte contents (bytes as `List Nat`).  The upload
  handler builds the relative path `static/sistemas/<nome>/<version>` which the OS
  resolves against the process working directory, so the embedding threads an
  explicit `cwd`; the download fallback builds its path from the directory of the
  module file (`Path(__file__).resolve().parent`), threaded as `moduleDir`.
* A raised `fastapi.HTTPException` and any other Python exception are modelled by
  `PyExc`.  Each route body returns `Except PyExc _`; the surrounding
  `try/except` clauses are applied afterwards.  Crucially, Python matches
  `except` clauses top-down and `HTTPException` is a subclass of `Exception`, so
  a handler whose broad `except Exception` clause is written before its
  `except HTTPException` clause rewraps the 404 it itself raised into a 500
  (`exceptBroadFirst`), while the opposite order lets it through
  (`exceptHTTPFirst`).
-/

deriving instance DecidableEq for Except

/-- A row of the `sistemas` table, mirroring the SQLAlchemy model `SistemaDB`:
`id` integer primary key, `nome` non-null string, `version` non-null integer,
`arquivo` nullable string (here: a parsed path, `none` for SQL NULL, `some []`
for the empty string, which Python treats as falsy exactly like NULL). -/
structure SistemaDB where
  id : Int
  nome : String
  version : Int
  arquivo : Option (List String)
deriving DecidableEq

/-- The `sistemas` table. -/
abbrev Store := List SistemaDB

/-- The filesystem: an association list from paths (component lists) to file
contents (byte lists); later writes shadow earlier ones. -/
abbrev FS := List (List String × List Nat)

/-- Reading a path from the filesystem. -/
def fsRead (fs : FS) (p : List String) : Option (List Nat) :=
  match fs with
  | [] => none
  | (q, b) :: rest => if q = p then some b else fsRead rest p

/-- Writing a file (the `open(..., "wb")` + `write` in the upload handler). -/
def fsWrite (fs : FS) (p : List String) (b : List Nat) : FS :=
  (p, b) :: fs

/-- `Path(p).exists()`. -/
def fsExists (fs : FS) (p : List String) : Bool :=
  (fsRead fs p).isSome

/-- A `fastapi.HTTPException`: status code and detail message. -/
structure HTTPError where
  status_code : Nat
  detail : String
deriving DecidableEq

/-- A Python exception as seen by the `except` clauses: either an
`HTTPException` or any other exception carrying its message. -/
inductive PyExc where
  | http (e : HTTPError)
  | generic (msg : String)
deriving DecidableEq

/-- Python `str(e)`: for a starlette `HTTPException` this is
`"<status_code>: <detail>"`; for other exceptions, the message. -/
def strOfExc : PyExc → String
  | .http e => toString e.status_code ++ ": " ++ e.detail
  | .generic m => m

/-- A handler whose `except Exception as e` clause precedes its
`except HTTPException` clause (as in `listar_sistema_por_id` and
`atualizar_cadastro_sistema`): since `HTTPException` is an `Exception`, the
broad clause catches every raised exception first and rewraps it as a 500
whose detail appends `str(e)` to the handler message. -/
def exceptBroadFirst (msg : String) : Except PyExc α → Except HTTPError α
  | .ok a => .ok a
  | .error e => .error ⟨500, msg ++ strOfExc e⟩

/-- A handler whose `except HTTPException: raise` clause precedes its broad
`except Exception as e` clause (as in `download_arquivo_sistema` and
`adicionar_arquivo_sistema`): HTTP errors pass through untouched, any other
exception becomes a 500. -/
def exceptHTTPFirst (msg : String) : Except PyExc α → Except HTTPError α
  | .ok a => .ok a
  | .error (.http e) => .error e
  | .error (.generic m) => .error ⟨500, msg ++ m⟩

/-- The Pydantic `SistemaResponse` model (what `model_validate` extracts from a
row). -/
structure SistemaResponse where
  id : Int
  nome : String
  version : Int
  arquivo : Option (List String)
deriving DecidableEq

/-- `SistemaResponse.model_validate` applied to a row. -/
def toResponse (s : SistemaDB) : SistemaResponse :=
  ⟨s.id, s.nome, s.version, s.arquivo⟩

/-- The Pydantic `SistemaCreate` request body.  `nome` is the only required
field, so it is always present in `model_dump(exclude_unset=True)`.  For the
optional fields the outer `Option` records whether the client supplied the
field at all (`none` = absent from the request), and for `version`/`arquivo`
the inner `Option` is the supplied value (`none` = an explicit JSON null). -/
structure SistemaCreate where
  id : Option Int
  nome : String
  version : Option (Option Int)
  arquivo : Option (Option (List String))
deriving DecidableEq

/-- `f"{sistema_info.id}"` for the `Optional[int]` id field. -/
def optIdStr : Option Int → String
  | none => "None"
  | some i => toString i

/-- Models the store-assigned autoincrement primary key: one more than the
largest id present (1 on an empty table). -/
def nextId (db : Store) : Int :=
  db.foldr (fun s m => max s.id m) 0 + 1

/-- Python truthiness of the `Optional[str]` query parameter `sistema_nome`:
`None` and the empty string are falsy. -/
def strOptTruthy : Option String → Bool
  | none => false
  | some s => !(s == "")

/-- Python truthiness of the nullable `arquivo` column: SQL NULL and the empty
string (empty component list) are falsy. -/
def truthyArquivo : Option (List String) → Bool
  | none => false
  | some [] => false
  | some (_ :: _) => true

/-- GET `/sistemas/` (`listar_sistemas`): `if sistema_nome:` filters by exact
name match only when the parameter is truthy, otherwise returns every row.
The `except` clause is unreachable in this pure model, so the handler returns
the list directly. -/
def listar_sistemas (db : Store) (sistema_nome : Option String) : List SistemaResponse :=
  if strOptTruthy sistema_nome then
    (db.filter (fun s => s.nome == sistema_nome.getD "")).map toResponse
  else
    db.map toResponse

/-- Body of GET `/sistemas/{sistema_id}` (`listar_sistema_por_id`): `first()`
on the id filter, raising 404 when no row matches. -/
def listar_sistema_por_id_body (db : Store) (sistema_id : Int) :
    Except PyExc SistemaResponse :=
  match db.find? (fun s => s.id == sistema_id) with
  | none => .error (.http ⟨404, "Sistema com ID " ++ toString sistema_id ++ " não encontrado"⟩)
  | some s => .ok (toResponse s)

/-- GET `/sistemas/{sistema_id}`: in the source the `except Exception` clause
precedes `except HTTPException`, so the 404 raised by the body is rewrapped as
a 500. -/
def listar_sistema_por_id (db : Store) (sistema_id : Int) :
    Except HTTPError SistemaResponse :=
  exceptBroadFirst "Erro ao listar sistema: " (listar_sistema_por_id_body db sistema_id)

/-- POST `/sistema/` (`criar_sistema`): inserts a row built only from
`sistema.nome` with `version=1` (the SQLAlchemy constructor receives neither
`arquivo`, which defaults to NULL, nor the ids/versions of the request), then
returns the refreshed row. -/
def criar_sistema (db : Store) (sistema : SistemaCreate) :
    Except HTTPError SistemaResponse × Store :=
  let novo : SistemaDB := { id := nextId db, nome := sistema.nome, version := 1, arquivo := none }
  (.ok (toResponse novo), db ++ [novo])

/-- `SistemaDB.id == sistema_info.id` in the UPDATE filter: comparing with SQL
NULL (an absent id) matches no row. -/
def rowMatches (p : SistemaCreate) (s : SistemaDB) : Bool :=
  match p.id with
  | none => false
  | some i => s.id == i

/-- Applying `model_dump(exclude_unset=True, exclude=set-of-id)` to one row:
`nome` is always present and overwritten; `version` and `arquivo` are applied
only when the request set them.  An explicit `version: null` never reaches this
point (the UPDATE fails on the NOT NULL column, see the caller). -/
def applyPatch (p : SistemaCreate) (s : SistemaDB) : SistemaDB :=
  { s with
    nome := p.nome
    version := match p.version with
      | some (some v) => v
      | _ => s.version
    arquivo := match p.arquivo with
      | some a => a
      | none => s.arquivo }

/-- Stands for the message of the database driver error raised when the UPDATE
tries to write NULL into the NOT NULL `version` column; the exact text is
driver-specific and no theorem depends on it. -/
def integrityErrorMessage : String :=
  "null value in column version violates not-null constraint"

/-- Body of PATCH `/sistema/` (`atualizar_cadastro_sistema`): bulk UPDATE
filtered by id, returning the matched row count; zero matches raise 404; a
request that explicitly sets `version` to null makes the UPDATE itself raise a
NOT NULL violation (a non-HTTP exception) and nothing is committed. -/
def atualizar_cadastro_sistema_body (db : Store) (p : SistemaCreate) :
    Except PyExc (String × Nat) × Store :=
  if (db.filter (rowMatches p)).length = 0 then
    (.error (.http ⟨404, "Sistema com ID " ++ optIdStr p.id ++ " não encontrado"⟩), db)
  else if p.version = some none then
    (.error (.generic integrityErrorMessage), db)
  else
    (.ok ("Sucesso!", 200), db.map fun s => if rowMatches p s then applyPatch p s else s)

/-- PATCH `/sistema/`: in the source the `except Exception` clause precedes
`except HTTPException`, so the 404 raised for an unmatched id is rewrapped as
a 500. -/
def atualizar_cadastro_sistema (db : Store) (p : SistemaCreate) :
    Except HTTPError (String × Nat) × Store :=
  ((exceptBroadFirst "Erro ao atualizar sistema: " (atualizar_cadastro_sistema_body db p).1),
   (atualizar_cadastro_sistema_body db p).2)

/-- The response of a successful download: `FileResponse(path, media_type,
filename)`; the file at `path` is opened only when the response is sent, so no
existence check is implied. -/
structure FileResponseDesc where
  path : List String
  media_type : String
  filename : String
deriving DecidableEq

/-- The conventional path the download fallback rebuilds:
`<moduleDir>/static/sistemas/<nome>/<version>/<nome>.exe`. -/
def fallbackPath (moduleDir : List String) (s : SistemaDB) : List String :=
  moduleDir ++ ["static", "sistemas", s.nome, toString s.version, s.nome ++ ".exe"]

/-- Body of GET `/sistemas/{id_sistema}/download` (`download_arquivo_sistema`):
404 when the row is missing or `arquivo` is falsy; stream `arquivo` when that
file exists; otherwise stream the rebuilt conventional path without checking
that it exists (the existence check is commented out in the source). -/
def download_arquivo_sistema_body (db : Store) (fs : FS) (moduleDir : List String)
    (id_sistema : Int) : Except PyExc FileResponseDesc :=
  match db.find? (fun s => s.id == id_sistema) with
  | none =>
      .error (.http ⟨404, "Sistema com ID " ++ toString id_sistema ++ " não encontrado ou sem arquivo"⟩)
  | some sistema =>
      if truthyArquivo sistema.arquivo = false then
        .error (.http ⟨404, "Sistema com ID " ++ toString id_sistema ++ " não encontrado ou sem arquivo"⟩)
      else if truthyArquivo sistema.arquivo && fsExists fs (sistema.arquivo.getD []) then
        .ok ⟨sistema.arquivo.getD [], "application/x-msdownload", sistema.nome ++ ".exe"⟩
      else
        .ok ⟨fallbackPath moduleDir sistema, "application/x-msdownload", sistema.nome ++ ".exe"⟩

/-- GET `/sistemas/{id_sistema}/download`: here `except HTTPException: raise`
precedes the broad clause, so the 404 reaches the client as a 404. -/
def download_arquivo_sistema (db : Store) (fs : FS) (moduleDir : List String)
    (id_sistema : Int) : Except HTTPError FileResponseDesc :=
  exceptHTTPFirst "Erro ao fazer download do arquivo: "
    (download_arquivo_sistema_body db fs moduleDir id_sistema)

/-- The path the upload handler writes:
`<cwd>/static/sistemas/<nome>/<version>/<original filename>` — the f-string
`static/sistemas/...` is a relative path, resolved against the process working
directory. -/
def uploadDest (cwd : List String) (s : SistemaDB) (filename : String) : List String :=
  cwd ++ ["static", "sistemas", s.nome, toString s.version, filename]

/-- Body of POST `/sistema/{sistema_id}/arquivo` (`adicionar_arquivo_sistema`):
reject any content type other than `application/x-msdownload` before touching
the database or the filesystem; 404 when the id matches no row; otherwise
create `static/sistemas/<nome>/<version>` and write the uploaded bytes to
`<that dir>/<original filename>`.  Every statement that would bump `version`
or persist the path into `arquivo` is commented out in the source, so the
table is returned unchanged on every branch. -/
def adicionar_arquivo_sistema_body (db : Store) (fs : FS) (cwd : List String)
    (sistema_id : Int) (content_type : String) (filename : String)
    (contents : List Nat) : Except PyExc (String × Nat) × Store × FS :=
  if content_type ≠ "application/x-msdownload" then
    (.error (.http ⟨400, "O arquivo deve ser um executável (.exe)"⟩), db, fs)
  else
    match db.find? (fun s => s.id == sistema_id) with
    | none =>
        (.error (.http ⟨404, "Sistema com ID " ++ toString sistema_id ++ " não encontrado"⟩), db, fs)
    | some sistema =>
        (.ok ("Sucesso!", 201), db, fsWrite fs (uploadDest cwd sistema filename) contents)

/-- POST `/sistema/{sistema_id}/arquivo`: `except HTTPException: raise` comes
first, so the 400/404 raised by the body reach the client unwrapped. -/
def adicionar_arquivo_sistema (db : Store) (fs : FS) (cwd : List String)
    (sistema_id : Int) (content_type : String) (filename : String)
    (contents : List Nat) : Except HTTPError (String × Nat) × Store × FS :=
  ((exceptHTTPFirst "Erro ao adicionar arquivo ao sistema: "
      (adicionar_arquivo_sistema_body db fs cwd sistema_id content_type filename contents).1),
   (adicionar_arquivo_sistema_body db fs cwd sistema_id content_type filename contents).2)

/-- Claim C5: every create-system request stores and returns a record with
`version = 1` and no file path, ignoring any `id`, `version` or `arquivo`
supplied in the body (the statement depends on the input only through
`input.nome`), and the response carries the store-assigned id. -/
theorem criar_sistema_version_one_no_file (db : Store) (input : SistemaCreate) :
    criar_sistema db input =
      (.ok ⟨nextId db, input.nome, 1, none⟩, db ++ [⟨nextId db, input.nome, 1, none⟩]) := rfl

/-- Claim C10: an empty-string name filter is falsy in Python, so list-systems
with filter `""` returns all records, exactly as with no filter at all. -/
theorem listar_sistemas_empty_filter_lists_all (db : Store) :
    listar_sistemas db (some "") = db.map toResponse ∧
    listar_sistemas db (some "") = listar_sistemas db none := by
  exact ⟨rfl, rfl⟩

/-- Claim C8, counterexample: with the store holding one record named `"a"`
and the filter set to the (supplied) empty string, list-systems does not
return the records whose name equals the filter (that set is empty); it
returns everything. -/
theorem listar_sistemas_exact_filter_cex :
    listar_sistemas [⟨1, "a", 1, none⟩] (some "") ≠
      (([⟨1, "a", 1, none⟩] : Store).filter (fun s => s.nome == "")).map toResponse := by
  decide

/-- Claim C8, amended: list-systems with a non-empty name filter returns
exactly the records whose name equals the filter, and list-systems without a
filter returns all records (an empty-string filter behaves like no filter). -/
theorem listar_sistemas_exact_filter (db : Store) (nome : String) (h : nome ≠ "") :
    listar_sistemas db (some nome) = (db.filter (fun s => s.nome == nome)).map toResponse ∧
    listar_sistemas db none = db.map toResponse := by
  have hb : (nome == "") = false := by simpa using h
  refine ⟨?_, rfl⟩
  simp [listar_sistemas, strOptTruthy, hb]

/-- Witness for the amended C8 theorem at a two-record store and filter
`"a"`. -/
theorem listar_sistemas_exact_filter_witness :
    ("a" : String) ≠ "" ∧
    (listar_sistemas [⟨1, "a", 1, none⟩, ⟨2, "b", 1, none⟩] (some "a") =
        (([⟨1, "a", 1, none⟩, ⟨2, "b", 1, none⟩] : Store).filter
          (fun s => s.nome == "a")).map toResponse ∧
      listar_sistemas [⟨1, "a", 1, none⟩, ⟨2, "b", 1, none⟩] none =
        ([⟨1, "a", 1, none⟩, ⟨2, "b", 1, none⟩] : Store).map toResponse) :=
  ⟨by decide, listar_sistemas_exact_filter [⟨1, "a", 1, none⟩, ⟨2, "b", 1, none⟩] "a" (by decide)⟩

/-- Claim C1, evaluated at the failing input (empty store, id 1): get-by-id
and update answer 500 — their broad `except Exception` clause precedes
`except HTTPException` and rewraps the 404 they raise — while only download,
whose clauses are in the opposite order, answers 404 as the claim states. -/
theorem nonexistent_id_get_update_500_download_404 :
    listar_sistema_por_id [] 1 =
      .error ⟨500, "Erro ao listar sistema: 404: Sistema com ID 1 não encontrado"⟩ ∧
    (atualizar_cadastro_sistema [] ⟨some 1, "x", none, none⟩).1 =
      .error ⟨500, "Erro ao atualizar sistema: 404: Sistema com ID 1 não encontrado"⟩ ∧
    (atualizar_cadastro_sistema [] ⟨some 1, "x", none, none⟩).2 = [] ∧
    download_arquivo_sistema [] [] [] 1 =
      .error ⟨404, "Sistema com ID 1 não encontrado ou sem arquivo"⟩ := by
  exact ⟨by decide, by decide, by decide, by decide⟩

/-- Claim C4: an upload whose declared content type is not
`application/x-msdownload` is rejected with 400; the content-type check is the
first statement of the handler, before the database session is even opened,
and on this path the returned store and filesystem are the inputs unchanged. -/
theorem upload_wrong_content_type_rejected (db : Store) (fs : FS) (cwd : List String)
    (sistema_id : Int) (content_type filename : String) (contents : List Nat)
    (h : content_type ≠ "application/x-msdownload") :
    adicionar_arquivo_sistema db fs cwd sistema_id content_type filename contents =
      (.error ⟨400, "O arquivo deve ser um executável (.exe)"⟩, db, fs) := by
  simp [adicionar_arquivo_sistema, adicionar_arquivo_sistema_body, h, exceptHTTPFirst]

/-- Witness for the C4 theorem: a `text/plain` upload to id 1. -/
theorem upload_wrong_content_type_rejected_witness :
    ("text/plain" : String) ≠ "application/x-msdownload" ∧
    adicionar_arquivo_sistema [⟨1, "a", 1, none⟩] [] ["w"] 1 "text/plain" "b.exe" [7] =
      (.error ⟨400, "O arquivo deve ser um executável (.exe)"⟩, [⟨1, "a", 1, none⟩], []) :=
  ⟨by decide,
   upload_wrong_content_type_rejected [⟨1, "a", 1, none⟩] [] ["w"] 1 "text/plain" "b.exe" [7]
     (by decide)⟩

/-- Claim C2: an upload with the executable content type to an existing system
id writes the uploaded bytes to
`<cwd>/static/sistemas/<nome>/<version>/<original filename>`, answers
201 Sucesso, and returns the store unchanged — in particular the matched
record keeps its `version` and its `arquivo` (the statements that would update
them are commented out in the source). -/
theorem upload_exe_writes_and_preserves_record (db : Store) (fs : FS) (cwd : List String)
    (sistema_id : Int) (sistema : SistemaDB) (filename : String) (contents : List Nat)
    (hfind : db.find? (fun s => s.id == sistema_id) = some sistema) :
    adicionar_arquivo_sistema db fs cwd sistema_id "application/x-msdownload" filename contents =
      (.ok ("Sucesso!", 201), db, fsWrite fs (uploadDest cwd sistema filename) contents) := by
  simp [adicionar_arquivo_sistema, adicionar_arquivo_sistema_body, hfind, exceptHTTPFirst]

/-- Witness for the C2 theorem: uploading `b.exe` (three bytes) for system 1
named `a` at version 1. -/
theorem upload_exe_writes_and_preserves_record_witness :
    ([⟨1, "a", 1, none⟩] : Store).find? (fun s => s.id == 1) = some ⟨1, "a", 1, none⟩ ∧
    adicionar_arquivo_sistema [⟨1, "a", 1, none⟩] [] ["w"] 1 "application/x-msdownload"
        "b.exe" [1, 2, 3] =
      (.ok ("Sucesso!", 201), [⟨1, "a", 1, none⟩],
        [(["w", "static", "sistemas", "a", "1", "b.exe"], [1, 2, 3])]) :=
  ⟨by decide,
   upload_exe_writes_and_preserves_record [⟨1, "a", 1, none⟩] [] ["w"] 1 ⟨1, "a", 1, none⟩
     "b.exe" [1, 2, 3] (by decide)⟩

/-- Claim C3: for a download whose id matches a record — when `arquivo` is
falsy (NULL or empty, the Python-truthiness reading of unset) the handler
answers 404; when `arquivo` holds a path that exists on disk it streams that
path; otherwise it streams the rebuilt conventional path
`<moduleDir>/static/sistemas/<nome>/<version>/<nome>.exe` without checking
existence.  Both success branches declare media type
`application/x-msdownload` and filename `<nome>.exe`. -/
theorem download_branches (db : Store) (fs : FS) (moduleDir : List String) (i : Int)
    (sistema : SistemaDB)
    (hfind : db.find? (fun s => s.id == i) = some sistema) :
    (truthyArquivo sistema.arquivo = false →
      download_arquivo_sistema db fs moduleDir i =
        .error ⟨404, "Sistema com ID " ++ toString i ++ " não encontrado ou sem arquivo"⟩) ∧
    (∀ p, sistema.arquivo = some p → truthyArquivo (some p) = true → fsExists fs p = true →
      download_arquivo_sistema db fs moduleDir i =
        .ok ⟨p, "application/x-msdownload", sistema.nome ++ ".exe"⟩) ∧
    (∀ p, sistema.arquivo = some p → truthyArquivo (some p) = true → fsExists fs p = false →
      download_arquivo_sistema db fs moduleDir i =
        .ok ⟨fallbackPath moduleDir sistema, "application/x-msdownload",
             sistema.nome ++ ".exe"⟩) := by
  refine ⟨fun ht => ?_, fun p hp ht hex => ?_, fun p hp ht hex => ?_⟩
  · simp [download_arquivo_sistema, download_arquivo_sistema_body, hfind, exceptHTTPFirst, ht]
  · simp [download_arquivo_sistema, download_arquivo_sistema_body, hfind, exceptHTTPFirst,
      hp, ht, hex]
  · simp [download_arquivo_sistema, download_arquivo_sistema_body, hfind, exceptHTTPFirst,
      hp, ht, hex]

/-- Witness for the C3 theorem, exercising the primary branch: system 1 has
`arquivo = ["f"]` and the filesystem holds a file at `["f"]`. -/
theorem download_branches_witness :
    ([⟨1, "a", 1, some ["f"]⟩] : Store).find? (fun s => s.id == 1) =
        some ⟨1, "a", 1, some ["f"]⟩ ∧
    download_arquivo_sistema [⟨1, "a", 1, some ["f"]⟩] [(["f"], [9])] ["m"] 1 =
      .ok ⟨["f"], "application/x-msdownload", "a" ++ ".exe"⟩ :=
  ⟨by decide,
   (download_branches [⟨1, "a", 1, some ["f"]⟩] [(["f"], [9])] ["m"] 1 ⟨1, "a", 1, some ["f"]⟩
     (by decide)).2.1 ["f"] rfl (by decide) (by decide)⟩

/-- Claim C6: for an update whose id matches a record, the new table is the
old one with the patch applied to the matched rows only, and the patch
overwrites exactly the fields present in the request: `id` is never written
(excluded), `nome` is always present and written, `version` and `arquivo`
keep their old values when absent from the request and take the supplied
value when present.  A request that explicitly sets `version` to null fails
on the NOT NULL column and then no field of any record changes. -/
theorem atualizar_patch_frame (db : Store) (p : SistemaCreate)
    (hm : (db.filter (rowMatches p)).length ≠ 0) :
    (p.version = some none → (atualizar_cadastro_sistema db p).2 = db) ∧
    (p.version ≠ some none →
      (atualizar_cadastro_sistema db p).2 =
        db.map fun s => if rowMatches p s then applyPatch p s else s) ∧
    (∀ s : SistemaDB,
      (applyPatch p s).id = s.id ∧
      (applyPatch p s).nome = p.nome ∧
      (p.version = none → (applyPatch p s).version = s.version) ∧
      (∀ v, p.version = some (some v) → (applyPatch p s).version = v) ∧
      (p.arquivo = none → (applyPatch p s).arquivo = s.arquivo) ∧
      (∀ a, p.arquivo = some a → (applyPatch p s).arquivo = a)) := by
  refine ⟨fun hv => ?_, fun hv => ?_, fun s => ?_⟩
  · simp [atualizar_cadastro_sistema, atualizar_cadastro_sistema_body, hm, hv]
  · simp [atualizar_cadastro_sistema, atualizar_cadastro_sistema_body, hm, hv]
  · refine ⟨rfl, rfl, fun h1 => by simp [applyPatch, h1], fun v h1 => by simp [applyPatch, h1],
      fun h2 => by simp [applyPatch, h2], fun a h2 => by simp [applyPatch, h2]⟩

/-- Witness for the C6 theorem: a two-record store, patching record 1 with a
new name and a new `version` while leaving `arquivo` absent. -/
theorem atualizar_patch_frame_witness :
    (([⟨1, "a", 1, none⟩, ⟨2, "b", 2, some ["q"]⟩] : Store).filter
        (rowMatches ⟨some 1, "c", some (some 5), none⟩)).length ≠ 0 ∧
    ((⟨some 1, "c", some (some 5), none⟩ : SistemaCreate).version = some none →
      (atualizar_cadastro_sistema [⟨1, "a", 1, none⟩, ⟨2, "b", 2, some ["q"]⟩]
          ⟨some 1, "c", some (some 5), none⟩).2 =
        [⟨1, "a", 1, none⟩, ⟨2, "b", 2, some ["q"]⟩]) ∧
    ((⟨some 1, "c", some (some 5), none⟩ : SistemaCreate).version ≠ some none →
      (atualizar_cadastro_sistema [⟨1, "a", 1, none⟩, ⟨2, "b", 2, some ["q"]⟩]
          ⟨some 1, "c", some (some 5), none⟩).2 =
        ([⟨1, "a", 1, none⟩, ⟨2, "b", 2, some ["q"]⟩] : Store).map fun s =>
          if rowMatches ⟨some 1, "c", some (some 5), none⟩ s then
            applyPatch ⟨some 1, "c", some (some 5), none⟩ s
          else s) ∧
    (∀ s : SistemaDB,
      (applyPatch ⟨some 1, "c", some (some 5), none⟩ s).id = s.id ∧
      (applyPatch ⟨some 1, "c", some (some 5), none⟩ s).nome =
        (⟨some 1, "c", some (some 5), none⟩ : SistemaCreate).nome ∧
      ((⟨some 1, "c", some (some 5), none⟩ : SistemaCreate).version = none →
        (applyPatch ⟨some 1, "c", some (some 5), none⟩ s).version = s.version) ∧
      (∀ v, (⟨some 1, "c", some (some 5), none⟩ : SistemaCreate).version = some (some v) →
        (applyPatch ⟨some 1, "c", some (some 5), none⟩ s).version = v) ∧
      ((⟨some 1, "c", some (some 5), none⟩ : SistemaCreate).arquivo = none →
        (applyPatch ⟨some 1, "c", some (some 5), none⟩ s).arquivo = s.arquivo) ∧
      (∀ a, (⟨some 1, "c", some (some 5), none⟩ : SistemaCreate).arquivo = some a →
        (applyPatch ⟨some 1, "c", some (some 5), none⟩ s).arquivo = a)) :=
  ⟨by decide,
   atualizar_patch_frame [⟨1, "a", 1, none⟩, ⟨2, "b", 2, some ["q"]⟩]
     ⟨some 1, "c", some (some 5), none⟩ (by decide)⟩

/-- The upload handler returns the table unchanged on every branch (all its
record mutations are commented out in the source). -/
theorem adicionar_preserves_store (db : Store) (fs : FS) (cwd : List String)
    (i : Int) (ct fn : String) (c : List Nat) :
    (adicionar_arquivo_sistema db fs cwd i ct fn c).2.1 = db := by
  by_cases h : ct = "application/x-msdownload"
  · subst h
    cases hf : db.find? (fun s => s.id == i) <;>
      simp [adicionar_arquivo_sistema, adicionar_arquivo_sistema_body, hf]
  · simp [adicionar_arquivo_sistema, adicionar_arquivo_sistema_body, h]

/-- Claim C7, counterexample: starting from the empty store, create a system
(its version is 1, the invariant holds), then update it with `version := 0`;
the update succeeds and the resulting store violates `version >= 1`. -/
theorem version_invariant_cex :
    (∀ s ∈ (criar_sistema [] ⟨none, "a", none, none⟩).2, 1 ≤ s.version) ∧
    (atualizar_cadastro_sistema (criar_sistema [] ⟨none, "a", none, none⟩).2
        ⟨some 1, "a", some (some 0), none⟩).1 = .ok ("Sucesso!", 200) ∧
    ¬ (∀ s ∈ (atualizar_cadastro_sistema (criar_sistema [] ⟨none, "a", none, none⟩).2
        ⟨some 1, "a", some (some 0), none⟩).2, 1 ≤ s.version) := by
  decide

/-- Claim C7, amended: every record has `version >= 1` after create (which
fixes version at 1) and after upload (which never touches the table), and the
invariant is preserved by update only under the proviso that any version value
supplied in the patch is itself at least 1 — the handler applies a supplied
version unchecked, so an unrestricted patch can break the invariant. -/
theorem version_invariant_guarded (db : Store) (inp p : SistemaCreate) (fs : FS)
    (cwd : List String) (i : Int) (ct fn : String) (contents : List Nat)
    (hinv : ∀ s ∈ db, 1 ≤ s.version)
    (hv : ∀ v, p.version = some (some v) → 1 ≤ v) :
    (∀ s ∈ (criar_sistema db inp).2, 1 ≤ s.version) ∧
    (∀ s ∈ (atualizar_cadastro_sistema db p).2, 1 ≤ s.version) ∧
    (∀ s ∈ (adicionar_arquivo_sistema db fs cwd i ct fn contents).2.1, 1 ≤ s.version) := by
  refine ⟨?_, ?_, ?_⟩
  · intro s hs
    simp [criar_sistema] at hs
    rcases hs with hs | rfl
    · exact hinv s hs
    · exact le_refl 1
  · intro s hs
    by_cases h0 : (db.filter (rowMatches p)).length = 0
    · simp [atualizar_cadastro_sistema, atualizar_cadastro_sistema_body, h0] at hs
      exact hinv s hs
    · by_cases hvn : p.version = some none
      · simp [atualizar_cadastro_sistema, atualizar_cadastro_sistema_body, h0, hvn] at hs
        exact hinv s hs
      · simp [atualizar_cadastro_sistema, atualizar_cadastro_sistema_body, h0, hvn] at hs
        obtain ⟨t, htdb, rfl⟩ := hs
        by_cases hr : rowMatches p t
        · simp only [hr, if_true, applyPatch]
          cases hpv : p.version with
          | none => simpa using hinv t htdb
          | some o =>
            cases o with
            | none => exact absurd hpv hvn
            | some v => simpa using hv v hpv
        · simpa [hr] using hinv t htdb
  · intro s hs
    rw [adicionar_preserves_store] at hs
    exact hinv s hs

/-- Witness for the amended C7 theorem: one record at version 1, a patch
setting version to 2, and an upload request. -/
theorem version_invariant_guarded_witness :
    (∀ s ∈ ([⟨1, "a", 1, none⟩] : Store), 1 ≤ s.version) ∧
    (∀ v, (⟨some 1, "c", some (some 2), none⟩ : SistemaCreate).version = some (some v) →
      1 ≤ v) ∧
    ((∀ s ∈ (criar_sistema [⟨1, "a", 1, none⟩] ⟨none, "b", none, none⟩).2, 1 ≤ s.version) ∧
     (∀ s ∈ (atualizar_cadastro_sistema [⟨1, "a", 1, none⟩]
        ⟨some 1, "c", some (some 2), none⟩).2, 1 ≤ s.version) ∧
     (∀ s ∈ (adicionar_arquivo_sistema [⟨1, "a", 1, none⟩] [] ["w"] 1
        "application/x-msdownload" "b.exe" [7]).2.1, 1 ≤ s.version)) :=
  ⟨by decide,
   by intro v h; simp at h; omega,
   version_invariant_guarded [⟨1, "a", 1, none⟩] ⟨none, "b", none, none⟩
     ⟨some 1, "c", some (some 2), none⟩ [] ["w"] 1 "application/x-msdownload" "b.exe" [7]
     (by decide) (by intro v h; simp at h; omega)⟩

/-- Claim C9: upload and download do not agree on the file location.  The
path the download fallback rebuilds equals the path upload wrote if and only
if the module directory coincides with the process working directory and the
original upload filename is exactly `<nome>.exe`; consequently an
upload-then-download round trip on an otherwise empty filesystem serves the
uploaded bytes through the fallback path exactly under those two conditions. -/
theorem upload_download_path_mismatch (cwd moduleDir : List String) (sistema : SistemaDB)
    (filename : String) (contents : List Nat) (db : Store)
    (hfind : db.find? (fun s => s.id == sistema.id) = some sistema) :
    (fallbackPath moduleDir sistema = uploadDest cwd sistema filename ↔
      moduleDir = cwd ∧ filename = sistema.nome ++ ".exe") ∧
    (fsRead (adicionar_arquivo_sistema db [] cwd sistema.id "application/x-msdownload"
          filename contents).2.2 (fallbackPath moduleDir sistema) = some contents ↔
      moduleDir = cwd ∧ filename = sistema.nome ++ ".exe") := by
  have core : fallbackPath moduleDir sistema = uploadDest cwd sistema filename ↔
      moduleDir = cwd ∧ filename = sistema.nome ++ ".exe" := by
    constructor
    · intro h
      have hlen : (["static", "sistemas", sistema.nome, toString sistema.version,
            sistema.nome ++ ".exe"] : List String).length =
          (["static", "sistemas", sistema.nome, toString sistema.version, filename] :
            List String).length := rfl
      obtain ⟨h1, h2⟩ := List.append_inj' h hlen
      refine ⟨h1, ?_⟩
      simp at h2
      exact h2.symm
    · rintro ⟨rfl, rfl⟩
      rfl
  have hfs : (adicionar_arquivo_sistema db [] cwd sistema.id "application/x-msdownload"
      filename contents).2.2 = [(uploadDest cwd sistema filename, contents)] := by
    simp [adicionar_arquivo_sistema, adicionar_arquivo_sistema_body, hfind, fsWrite,
      exceptHTTPFirst]
  refine ⟨core, ?_⟩
  rw [hfs, ← core]
  simp only [fsRead]
  constructor
  · intro h
    split at h
    · exact (by assumption : uploadDest cwd sistema filename = fallbackPath moduleDir sistema).symm
    · exact absurd h (by simp)
  · intro h
    rw [if_pos h.symm]

/-- Witness for the C9 theorem: system 1 named `a` at version 2, working
directory `w`, module directory `m`, uploaded filename `b.exe`. -/
theorem upload_download_path_mismatch_witness :
    ([⟨1, "a", 2, none⟩] : Store).find? (fun s => s.id == (⟨1, "a", 2, none⟩ : SistemaDB).id) =
        some ⟨1, "a", 2, none⟩ ∧
    ((fallbackPath ["m"] ⟨1, "a", 2, none⟩ = uploadDest ["w"] ⟨1, "a", 2, none⟩ "b.exe" ↔
        (["m"] : List String) = ["w"] ∧
          ("b.exe" : String) = (⟨1, "a", 2, none⟩ : SistemaDB).nome ++ ".exe") ∧
      (fsRead (adicionar_arquivo_sistema [⟨1, "a", 2, none⟩] [] ["w"]
            (⟨1, "a", 2, none⟩ : SistemaDB).id "application/x-msdownload" "b.exe" [5]).2.2
          (fallbackPath ["m"] ⟨1, "a", 2, none⟩) = some [5] ↔
        (["m"] : List String) = ["w"] ∧
          ("b.exe" : String) = (⟨1, "a", 2, none⟩ : SistemaDB).nome ++ ".exe")) :=
  ⟨by decide,
   upload_download_path_mismatch ["w"] ["m"] ⟨1, "a", 2, none⟩ "b.exe" [5] [⟨1, "a", 2, none⟩]
     (by decide)⟩
